import Mathlib

/-!
Verification of the genomic-variant latency-benchmarking harness
(`empty_benchmark.py`) against its natural-language specification.

The harness is embedded shallowly:

* elapsed times (Python floats holding millisecond durations) are modelled
  as rationals; no claim depends on float rounding of the measured values,
* a query invocation that may raise is modelled as a value of
  `Except String (elapsed, rowCount)`; the behaviour of the bound query
  callable on its successive calls is a function from the call ordinal,
* console output relevant to the claims is collected in `List String`
  message logs, in print order,
* the file handling of the exporter is recorded in a `SaveOutcome` value
  (whether `open(output_file, "w")` ran, the header, the data rows and the
  printed messages).
-/

namespace GenomicBench

/-- A CSV cell as produced by `csv.DictWriter` from the `to_dict`
dictionary: the harness only ever stores strings, floats (rationals here)
and non-negative integers. -/
inductive Value where
  | vs : String → Value
  | vq : ℚ → Value
  | vn : ℕ → Value
deriving DecidableEq, Repr

/-- `class BenchmarkResult`: one measured invocation.  `timestamp` is set
at construction (`datetime.now().isoformat()` in the source); the model
threads it in as data so that runs with fixed timestamps are expressible. -/
structure BenchmarkResult where
  database : String
  query_type : String
  response_time : ℚ
  rows_returned : ℕ
  cache_state : String
  timestamp : String
deriving DecidableEq, Repr

/-- `BenchmarkResult.to_dict`: insertion-ordered dictionary, hence a fixed
key order. -/
def BenchmarkResult.to_dict (r : BenchmarkResult) : List (String × Value) :=
  [("database", Value.vs r.database),
   ("query_type", Value.vs r.query_type),
   ("response_time_ms", Value.vq r.response_time),
   ("rows_returned", Value.vn r.rows_returned),
   ("cache_state", Value.vs r.cache_state),
   ("timestamp", Value.vs r.timestamp)]

/-- Python `sorted` on a list of numbers: ascending order.  Insertion sort
is extensionally the same function on rational values. -/
def pysorted (l : List ℚ) : List ℚ :=
  l.insertionSort (· ≤ ·)

/-- `statistics.median`: average of the two middle elements of the sorted
list for even length, the middle element for odd length.  Only called on
non-empty input by the harness. -/
def pythonMedian (l : List ℚ) : ℚ :=
  let s := pysorted l
  let n := l.length
  if n % 2 = 1 then s.getD (n / 2) 0
  else (s.getD (n / 2 - 1) 0 + s.getD (n / 2) 0) / 2

/-- Python `min` over a non-empty list (the empty case never occurs in the
harness; `0` stands in for the raised `ValueError`). -/
def pymin (l : List ℚ) : ℚ :=
  match l with
  | [] => 0
  | x :: xs => xs.foldl min x

/-- Python `max` over a non-empty list, as `pymin`. -/
def pymax (l : List ℚ) : ℚ :=
  match l with
  | [] => 0
  | x :: xs => xs.foldl max x

/-- What `print_statistics` prints for one (backend, operation) pair.
`isNoData` is the early-return branch (`"No results for ..."`); in that
branch the source computes nothing, which the model renders as every other
field keeping its default.  `stddevShown` records whether a standard
deviation is printed (`len(times) > 1`) or the literal `"Std Dev: N/A"` is
printed instead; the square root itself is not needed by any claim and is
not modelled. -/
structure StatsReport where
  db : String := ""
  query : String := ""
  isNoData : Bool := false
  count : ℕ := 0
  mean : ℚ := 0
  median : ℚ := 0
  minV : ℚ := 0
  maxV : ℚ := 0
  stddevShown : Bool := false
  p95 : ℚ := 0
  p99 : ℚ := 0
deriving DecidableEq, Repr

/-- `print_statistics(results, query_name, db_name)`.

The source computes the percentile indices as `int(len(sorted_times) * 0.95)`
and `int(len(sorted_times) * 0.99)` with IEEE-754 double arithmetic.  The
double nearest to 0.95 is 8556839292003942 / 2^53 (slightly below 19/20) and
the double nearest to 0.99 is 8917127262193582 / 2^53 (slightly below
99/100); multiplying by the integer `n` and rounding to nearest re-crosses
the gap whenever 19n/20 (resp. 99n/100) is an integer, and otherwise the
fractional slack of at least 1/20 (resp. 1/100) dominates the accumulated
error of about n/2^52.  The truncation therefore equals the exact
floor(19n/20) resp. floor(99n/100) for every list length below about 10^13,
far beyond any sample list the harness can hold, so the embedding uses the
exact rational index. -/
def print_statistics (results : List BenchmarkResult) (query_name db_name : String) :
    StatsReport :=
  match results with
  | [] => { db := db_name, query := query_name, isNoData := true }
  | r :: rs =>
    let times := (r :: rs).map (fun x => x.response_time)
    let n := times.length
    let sorted_times := pysorted times
    let p95_idx := 19 * n / 20
    let p99_idx := 99 * n / 100
    { db := db_name,
      query := query_name,
      isNoData := false,
      count := n,
      mean := times.sum / (n : ℚ),
      median := pythonMedian times,
      minV := pymin times,
      maxV := pymax times,
      stddevShown := decide (1 < n),
      p95 := sorted_times.getD p95_idx 0,
      p99 := sorted_times.getD p99_idx 0 }

/-- The percentile rule in the words of the specification: sort the
`elapsed_ms` values ascending, form the index floor(count * p / 100),
clamp it into [0, count-1] and return the value stored there.  This is the
spec-side definition compared against the harness in claim C1. -/
def specNearestRank (times : List ℚ) (p : ℕ) : ℚ :=
  (pysorted times).getD (min (times.length * p / 100) (times.length - 1)) 0

/-- Sample constructor used for concrete instances in theorems. -/
def mkSample (t : ℚ) : BenchmarkResult :=
  { database := "DemoDB", query_type := "Q1", response_time := t,
    rows_returned := 1, cache_state := "warm",
    timestamp := "2026-01-01T00:00:00" }

/-- Is an invocation outcome a success?  (Used to state hypotheses about
which iterations fail.) -/
def okOutcome : Except String (ℚ × ℕ) → Bool
  | .ok _ => true
  | .error _ => false

/-- The message printed by `run_benchmark` when iteration `i` raises `e`:
`"Error in {benchmark.name} - {query_name} iteration {i+1}: {e}"`.
The argument `k` is the already one-based index `i+1`. -/
def errMsg (name qname : String) (k : ℕ) (e : String) : String :=
  "Error in " ++ name ++ " - " ++ qname ++ " iteration " ++ toString k ++ ": " ++ e

/-- The `BenchmarkResult(...)` constructed inside the loop of
`run_benchmark` after a successful `time_query` call. -/
def mkResult (name qname cs tstamp : String) (t : ℚ) (rc : ℕ) : BenchmarkResult :=
  { database := name, query_type := qname, response_time := t,
    rows_returned := rc, cache_state := cs, timestamp := tstamp }

/-- One pass of the `for i in range(iterations)` loop of `run_benchmark`:
on success append a sample to the result list, on an exception append the
error report to the console log and continue. -/
def bench_step (name qname cs : String) (ts : ℕ → String)
    (outcome : ℕ → Except String (ℚ × ℕ))
    (acc : List BenchmarkResult × List String) (i : ℕ) :
    List BenchmarkResult × List String :=
  match outcome i with
  | .ok (t, rc) => (acc.1 ++ [mkResult name qname cs (ts i) t rc], acc.2)
  | .error e => (acc.1, acc.2 ++ [errMsg name qname (i + 1) e])

/-- `run_benchmark(benchmark, query_name, query_func, args, iterations,
cache_state)`.  `outcome i` is what the `i`-th call of
`time_query(query_func, *args)` does: `.ok (elapsed_ms, row_count)` or
`.error e` when the callable raises; `ts i` is the timestamp captured when
the `i`-th sample is constructed.  The returned pair is (the `results`
list, the error lines printed by the `except` branch, in order). -/
def run_benchmark (name qname : String) (outcome : ℕ → Except String (ℚ × ℕ))
    (ts : ℕ → String) (iterations : ℕ) (cache_state : String) :
    List BenchmarkResult × List String :=
  (List.range iterations).foldl (bench_step name qname cache_state ts outcome) ([], [])

/-- The sample produced by iteration `i`, if any. -/
def benchSample (name qname cs : String) (ts : ℕ → String)
    (outcome : ℕ → Except String (ℚ × ℕ)) (i : ℕ) : Option BenchmarkResult :=
  match outcome i with
  | .ok (t, rc) => some (mkResult name qname cs (ts i) t rc)
  | .error _ => none

/-- The error line produced by iteration `i`, if any. -/
def benchErr (name qname : String) (outcome : ℕ → Except String (ℚ × ℕ))
    (i : ℕ) : Option String :=
  match outcome i with
  | .ok _ => none
  | .error e => some (errMsg name qname (i + 1) e)

theorem run_benchmark_eq (name qname cs : String) (ts : ℕ → String)
    (outcome : ℕ → Except String (ℚ × ℕ)) :
    ∀ N, run_benchmark name qname outcome ts N cs =
      ((List.range N).filterMap (benchSample name qname cs ts outcome),
       (List.range N).filterMap (benchErr name qname outcome)) := by
  intro N
  induction N with
  | zero => rfl
  | succ n ih =>
    unfold run_benchmark at ih ⊢
    rw [List.range_succ, List.foldl_append, ih]
    simp only [List.foldl_cons, List.foldl_nil, List.filterMap_append]
    unfold bench_step benchSample benchErr
    cases houtcome : outcome n with
    | ok v =>
      obtain ⟨t, rc⟩ := v
      simp [houtcome]
    | error e =>
      simp [houtcome]

theorem filterMap_length_all_some {α β : Type} (f : α → Option β) :
    ∀ l : List α, (∀ a ∈ l, (f a).isSome) → (l.filterMap f).length = l.length := by
  intro l
  induction l with
  | nil => intro _; rfl
  | cons a l ih =>
    intro hall
    have ha := hall a (List.mem_cons_self a l)
    obtain ⟨b, hb⟩ := Option.isSome_iff_exists.mp ha
    rw [List.filterMap_cons, hb, List.length_cons, List.length_cons,
      ih fun x hx => hall x (List.mem_cons_of_mem a hx)]

theorem filterMap_range_one_none {β : Type} (f : ℕ → Option β) :
    ∀ N i₀, i₀ < N → f i₀ = none → (∀ i, i < N → i ≠ i₀ → (f i).isSome) →
      ((List.range N).filterMap f).length = N - 1 := by
  intro N
  induction N with
  | zero => intro i₀ hi; omega
  | succ n ih =>
    intro i₀ hi hnone hsome
    rw [List.range_succ, List.filterMap_append, List.length_append]
    rcases Nat.lt_succ_iff_lt_or_eq.mp hi with hlt | heq
    · have htail : (f n).isSome := hsome n (Nat.lt_succ_self n) (by omega)
      obtain ⟨b, hb⟩ := Option.isSome_iff_exists.mp htail
      rw [ih i₀ hlt hnone fun i h1 h2 => hsome i (by omega) h2]
      simp [hb]
      omega
    · subst heq
      have hhead : ((List.range i₀).filterMap f).length = (List.range i₀).length := by
        apply filterMap_length_all_some
        intro a ha
        have hm := List.mem_range.mp ha
        exact hsome a (by omega) (by omega)
      rw [hhead, List.length_range]
      simp [hnone]

theorem filterMap_range_one_some {β : Type} (g : ℕ → Option β) :
    ∀ N i₀ m, i₀ < N → g i₀ = some m → (∀ i, i < N → i ≠ i₀ → g i = none) →
      (List.range N).filterMap g = [m] := by
  intro N
  induction N with
  | zero => intro i₀ m hi; omega
  | succ n ih =>
    intro i₀ m hi hm hnone
    rw [List.range_succ, List.filterMap_append]
    rcases Nat.lt_succ_iff_lt_or_eq.mp hi with hlt | heq
    · rw [ih i₀ m hlt hm fun i h1 h2 => hnone i (by omega) h2]
      have : g n = none := hnone n (Nat.lt_succ_self n) (by omega)
      simp [this]
    · subst heq
      have hhead : (List.range i₀).filterMap g = [] := by
        rw [List.filterMap_eq_nil_iff]
        intro a ha
        have hmem := List.mem_range.mp ha
        exact hnone a (by omega) (by omega)
      rw [hhead]
      simp [hm]

/-- Every sample produced by `run_benchmark` carries the `cache_state`
passed in ("warm" for every measured iteration of the harness). -/
theorem mem_run_benchmark_cache (name qname cs : String) (ts : ℕ → String)
    (outcome : ℕ → Except String (ℚ × ℕ)) (N : ℕ) (r : BenchmarkResult)
    (hr : r ∈ (run_benchmark name qname outcome ts N cs).1) :
    r.cache_state = cs := by
  rw [run_benchmark_eq] at hr
  obtain ⟨i, _, hsome⟩ := List.mem_filterMap.mp hr
  unfold benchSample at hsome
  cases houtcome : outcome i with
  | ok v =>
    obtain ⟨t, rc⟩ := v
    rw [houtcome] at hsome
    simp only [Option.some.injEq] at hsome
    rw [← hsome]
    rfl
  | error e =>
    rw [houtcome] at hsome
    simp at hsome

/-- What `save_results(all_results, output_file)` does to the world.
`fileCreated` records that `open(output_file, "w")` ran, which creates the
destination file or truncates an existing one; `header`/`rows` are what
`csv.DictWriter` writes into it; `messages` are the prints, in order. -/
structure SaveOutcome where
  fileCreated : Bool
  header : Option (List String)
  rows : List (List Value)
  messages : List String
deriving DecidableEq, Repr

/-- `save_results`.  The source opens the file before testing
`all_results`, so the file is created (empty) even for an empty sample
list; the `DictWriter` fieldnames are the keys of the first result's
`to_dict`, then one row per result, in list order.  The final
`"Results saved to ..."` print runs unconditionally. -/
def save_results (all_results : List BenchmarkResult) (output_file : String) :
    SaveOutcome :=
  match all_results with
  | [] =>
    { fileCreated := true, header := none, rows := [],
      messages := ["No results to save", "Results saved to " ++ output_file] }
  | r :: rs =>
    { fileCreated := true,
      header := some (r.to_dict.map Prod.fst),
      rows := (r :: rs).map (fun x => x.to_dict.map Prod.snd),
      messages := ["Results saved to " ++ output_file] }

/-- The export row in the words of the specification (section 6): columns
database, query_type, response_time_ms, rows_returned, cache_state,
timestamp, in that stable order.  Spec-side definition compared against
the harness in claim C7. -/
def specExportRow (x : BenchmarkResult) : List Value :=
  [Value.vs x.database, Value.vs x.query_type, Value.vq x.response_time,
   Value.vn x.rows_returned, Value.vs x.cache_state, Value.vs x.timestamp]

/-- A pluggable backend (a `DatabaseBenchmark` subclass instance) as the
orchestration loop in `main` observes it.  `call qid k` is the behaviour
of the `k`-th invocation of the bound query function `qid` on this
backend, counting warmup calls first and then measured calls, in program
order; `connectOK`/`disconnectOK` say whether `connect()`/`disconnect()`
raise, and the `...Err` fields carry the exception text when they do. -/
structure Backend where
  name : String
  connectOK : Bool
  connectErr : String
  disconnectOK : Bool
  disconnectErr : String
  call : String → ℕ → Except String (ℚ × ℕ)

/-- The warmup loop of `main` for one (backend, query) pair: each of the
`warmup` calls runs the same invocation path, the return value is
discarded, and an exception only prints `"  Warmup error: {e}"`. -/
def warmup_phase (b : Backend) (qid : String) (warmup : ℕ) : List String :=
  (List.range warmup).filterMap (fun k =>
    match b.call qid k with
    | .ok _ => none
    | .error e => some ("  Warmup error: " ++ e))

/-- Output of one (backend, query) block of the `main` loop. -/
structure PairOutput where
  samples : List BenchmarkResult
  report : StatsReport
  messages : List String

/-- One (backend, query) block of `main`: warmup loop, then
`run_benchmark(..., cache_state="warm")`, then
`print_statistics(results, query_id, db_benchmark.name)`.  Measured call
`i` is overall call `warmup + i` of the bound query function. -/
def run_pair (b : Backend) (qid : String) (warmup iterations : ℕ)
    (ts : ℕ → String) : PairOutput :=
  let wErrs := warmup_phase b qid warmup
  let m := run_benchmark b.name qid (fun i => b.call qid (warmup + i)) ts
    iterations "warm"
  { samples := m.1,
    report := print_statistics m.1 qid b.name,
    messages := wErrs ++ m.2 }

/-- The per-backend body of the `main` loop: `connect()`, every configured
query in order, then `disconnect()`.  A connect exception prints
`"Failed to connect to {name}: {e}"` and `continue`s, so a backend whose
connect fails contributes nothing else. -/
def run_backend (b : Backend) (queries : List String) (iterations warmup : ℕ)
    (ts : ℕ → String) : List BenchmarkResult × List String :=
  if b.connectOK then
    let pairs := queries.map (fun qid => run_pair b qid warmup iterations ts)
    ((pairs.map PairOutput.samples).flatten,
     ["Connected to " ++ b.name] ++ (pairs.map PairOutput.messages).flatten ++
       (if b.disconnectOK then ["Disconnected from " ++ b.name]
        else ["Error disconnecting from " ++ b.name ++ ": " ++ b.disconnectErr]))
  else
    ([], ["Failed to connect to " ++ b.name ++ ": " ++ b.connectErr])

/-- One pass of the backend loop, extending the `all_results` accumulator
and the console log. -/
def run_all_step (queries : List String) (iterations warmup : ℕ)
    (ts : ℕ → String) (acc : List BenchmarkResult × List String)
    (b : Backend) : List BenchmarkResult × List String :=
  ((acc.1 ++ (run_backend b queries iterations warmup ts).1),
   (acc.2 ++ (run_backend b queries iterations warmup ts).2))

/-- The backend loop of `main`: backends in the order supplied,
`all_results` append-only. -/
def run_all (dbs : List Backend) (queries : List String)
    (iterations warmup : ℕ) (ts : ℕ → String) :
    List BenchmarkResult × List String :=
  dbs.foldl (run_all_step queries iterations warmup ts) ([], [])

theorem run_all_acc (queries : List String) (iterations warmup : ℕ)
    (ts : ℕ → String) :
    ∀ (dbs : List Backend) (a : List BenchmarkResult × List String),
      dbs.foldl (run_all_step queries iterations warmup ts) a =
        (a.1 ++ (run_all dbs queries iterations warmup ts).1,
         a.2 ++ (run_all dbs queries iterations warmup ts).2) := by
  intro dbs
  induction dbs with
  | nil => intro a; simp [run_all]
  | cons b bs ih =>
    intro a
    rw [List.foldl_cons, ih]
    conv_rhs => rw [run_all, List.foldl_cons, ih]
    simp [run_all_step, List.append_assoc]

theorem run_all_cons (b : Backend) (bs : List Backend) (queries : List String)
    (iterations warmup : ℕ) (ts : ℕ → String) :
    run_all (b :: bs) queries iterations warmup ts =
      ((run_backend b queries iterations warmup ts).1 ++
         (run_all bs queries iterations warmup ts).1,
       (run_backend b queries iterations warmup ts).2 ++
         (run_all bs queries iterations warmup ts).2) := by
  rw [run_all, List.foldl_cons, run_all_acc]
  simp [run_all_step]

theorem run_all_append (l₁ l₂ : List Backend) (queries : List String)
    (iterations warmup : ℕ) (ts : ℕ → String) :
    run_all (l₁ ++ l₂) queries iterations warmup ts =
      ((run_all l₁ queries iterations warmup ts).1 ++
         (run_all l₂ queries iterations warmup ts).1,
       (run_all l₁ queries iterations warmup ts).2 ++
         (run_all l₂ queries iterations warmup ts).2) := by
  rw [run_all, List.foldl_append, run_all_acc]
  rfl

/-- What a whole `main` run produces.  The script never calls `sys.exit`
and `main()`'s return value is discarded by the `__main__` guard, so the
interpreter exits with status 0 on every path the model covers; hence
`exitCode := 0` in each branch.  `saved` is the exporter outcome when
`save_results` runs at all. -/
structure RunOutput where
  all_results : List BenchmarkResult
  messages : List String
  exitCode : ℕ
  saved : Option SaveOutcome

/-- The tail of `main` from the point where the `databases` list (left to
the TODO section in the source) is populated: early return when it is
empty, otherwise the backend loop followed by
`if all_results: save_results(...) else: print("No results collected")`. -/
def main_run (dbs : List Backend) (queries : List String)
    (iterations warmup : ℕ) (ts : ℕ → String) (out : String) : RunOutput :=
  match dbs with
  | [] =>
    { all_results := [],
      messages := ["No database benchmark implementations available.",
        "Please implement a DatabaseBenchmark subclass and add it to the databases list."],
      exitCode := 0, saved := none }
  | d :: ds =>
    match run_all (d :: ds) queries iterations warmup ts with
    | ([], msgs) =>
      { all_results := [], messages := msgs ++ ["No results collected"],
        exitCode := 0, saved := none }
    | (x :: xs, msgs) =>
      { all_results := x :: xs,
        messages := msgs ++
          ["Total results collected: " ++ toString (x :: xs).length],
        exitCode := 0,
        saved := some (save_results (x :: xs) out) }

/-- One `query_def` record of the configuration JSON.  Each field is
`none` when the corresponding key is absent from the parsed dictionary
(`query_def["method"]` then raises `KeyError`). -/
structure QueryDef where
  method : Option String
  params : Option (List (String × Value))
  description : Option String
deriving DecidableEq

/-- The parsed configuration dictionary; `queries` is `none` when the top
level has no `"queries"` key (the `config and "queries" in config` test of
`main` then falls through to the defaults; an entirely empty dictionary is
falsy in Python and takes the same branch). -/
structure Config where
  queries : Option (List (String × QueryDef))
deriving DecidableEq

/-- What reading and parsing the configuration file can yield. -/
inductive ConfigSource where
  | missing
  | unparseable (err : String)
  | parsed (c : Config)

/-- `load_query_config(config_file)`: `FileNotFoundError` and
`json.JSONDecodeError` are each caught, reported and turned into `None`;
any parsed document is returned as is.  (The source wraps the file name in
single quotation marks inside the first message; the quotation marks are
elided here.) -/
def load_query_config (config_file : String) (src : ConfigSource) :
    Option Config × List String :=
  match src with
  | .missing =>
    (none, ["Query configuration file " ++ config_file ++
      " not found. Using default queries."])
  | .unparseable e => (none, ["Error parsing query configuration: " ++ e])
  | .parsed c => (some c, [])

/-- One entry of the `queries` list built in `main`: the operation id and
its human-readable description.  The bound invocation closing over method
name and parameters is modelled behaviourally by `Backend.call`, keyed by
the id. -/
structure QueryEntry where
  id : String
  desc : String
deriving DecidableEq

/-- The fallback workload hardcoded in `main` (ids and descriptions as in
the source). -/
def default_queries : List QueryEntry :=
  [⟨"Q1", "Variant by ID (chr22:10736093:A:T)"⟩,
   ⟨"Q2", "Variant by Position (chr22:10736093)"⟩,
   ⟨"Q3", "Variant by rsID (rs1394819064)"⟩,
   ⟨"Q4", "All Variants in Gene (BRCA1)"⟩,
   ⟨"Q5", "Gene Variants Limited (BRCA1, first 100)"⟩,
   ⟨"Q6", "Small Range (chr22:10736093-10739993)"⟩,
   ⟨"Q7", "Medium Range (chr22:10500000-10600000)"⟩,
   ⟨"Q8", "Large Range (chr22:10500000-20500000)"⟩,
   ⟨"Q9", "Transcript Variants (ENST00000615943)"⟩,
   ⟨"Q10", "Coding Variants"⟩,
   ⟨"Q11", "Gene with Quality (BRCA1, Q>30)"⟩,
   ⟨"Q12", "Rare Variants (BRCA1, AF<0.01)"⟩]

/-- `query_def[key]`: the value when the key is present, otherwise the
uncaught `KeyError` (its text elides the quotation marks Python prints
around the key). -/
def getKey {α : Type} (v : Option α) (key : String) : Except String α :=
  match v with
  | some x => .ok x
  | none => .error ("KeyError: " ++ key)

/-- The body of the query-building loop of `main` for one configuration
record: the three subscript accesses, in source order.  A missing key is
an exception that nothing in `main` catches. -/
def build_one (qid : String) (qd : QueryDef) : Except String QueryEntry := do
  let _method ← getKey qd.method "method"
  let _params ← getKey qd.params "params"
  let d ← getKey qd.description "description"
  pure ⟨qid, d⟩

/-- The query-building section of `main`: build from the configuration
when it parsed and has a `"queries"` key (a missing sub-key propagates as
an uncaught `KeyError`), otherwise print the fallback notice and use the
hardcoded list. -/
def build_queries (config : Option Config) :
    Except String (List QueryEntry) × List String :=
  match config with
  | some c =>
    match c.queries with
    | some qs => (qs.mapM (fun p => build_one p.1 p.2), [])
    | none => (.ok default_queries, ["Using default hardcoded queries..."])
  | none => (.ok default_queries, ["Using default hardcoded queries..."])

/-- Loading followed by building: the configuration path of `main` from
the `load_query_config` call to the finished `queries` list.  An
`Except.error` result is an exception that aborts the process. -/
def config_pipeline (config_file : String) (src : ConfigSource) :
    Except String (List QueryEntry) × List String :=
  ((build_queries (load_query_config config_file src).1).1,
   (load_query_config config_file src).2 ++
     (build_queries (load_query_config config_file src).1).2)

/-- A query definition record with every key missing, as parsed from the
JSON document with `"queries": {"Q1": {}}`. -/
def badQueryDef : QueryDef := ⟨none, none, none⟩

/-- The whole of `main` after argument parsing.  The source checks
`if not databases:` (and returns) before loading the configuration, so the
backend list is matched first; then the configuration is loaded and the
workload built; an uncaught KeyError from a malformed query definition
ends the interpreter with the traceback and a non-zero status (modelled
as exit code 1, the error text in the log, nothing run and nothing saved);
with the workload built, the benchmark tail `main_run` runs over the
built operation ids. -/
def main_full (cfile : String) (src : ConfigSource) (dbs : List Backend)
    (iterations warmup : ℕ) (ts : ℕ → String) (out : String) : RunOutput :=
  match dbs with
  | [] => main_run [] [] iterations warmup ts out
  | d :: ds =>
    match (config_pipeline cfile src).1 with
    | .error e =>
      { all_results := [],
        messages := (config_pipeline cfile src).2 ++ [e],
        exitCode := 1, saved := none }
    | .ok qs =>
      let t := main_run (d :: ds) (qs.map QueryEntry.id) iterations warmup ts out
      { all_results := t.all_results,
        messages := (config_pipeline cfile src).2 ++ t.messages,
        exitCode := t.exitCode,
        saved := t.saved }

/-- Fixed timestamp source for concrete runs. -/
def tsf : ℕ → String := fun _ => "2026-01-01T00:00:00"

/-- A backend whose every invocation succeeds. -/
def demoCall : String → ℕ → Except String (ℚ × ℕ) :=
  fun _ k => .ok ((k : ℚ) + 1, 3)

/-- A healthy demo backend. -/
def demoBackend : Backend :=
  { name := "DemoDB", connectOK := true, connectErr := "",
    disconnectOK := true, disconnectErr := "", call := demoCall }

/-- A backend whose `connect()` raises. -/
def badBackend : Backend :=
  { name := "BadDB", connectOK := false, connectErr := "connection refused",
    disconnectOK := true, disconnectErr := "", call := demoCall }

/-- A backend whose first call of any query (the warmup call in a run with
one warmup iteration) raises, and whose later calls succeed. -/
def warmCall : String → ℕ → Except String (ℚ × ℕ) :=
  fun _ k => if k = 0 then .error "cold cache" else .ok ((k : ℚ), 1)

/-- Demo backend built on `warmCall`. -/
def warmBackend : Backend :=
  { name := "WarmDB", connectOK := true, connectErr := "",
    disconnectOK := true, disconnectErr := "", call := warmCall }

/-- `warmCall` with the warmup call (ordinal 0) replaced by a success:
agrees with `warmCall` from ordinal 1 on. -/
def altCall : String → ℕ → Except String (ℚ × ℕ) :=
  fun q k => if k = 0 then .ok (7, 7) else warmCall q k

/-- An invocation behaviour failing exactly on measured iteration 1 of 3. -/
def oneFailOutcome : ℕ → Except String (ℚ × ℕ) :=
  fun i => if i = 1 then .error "boom" else .ok (2, 5)

/-- C1: for every non-empty sample list the statistics reporter computes
P95 and P99 by the nearest-rank method: sort the elapsed values ascending
(first two conjuncts: the list the reporter indexes into is a sorted
permutation of the elapsed values), take the value at index
floor(count * 0.95) resp. floor(count * 0.99), each clamped to
[0, count-1] (conjuncts three and four, against the spec-side
`specNearestRank`); in particular a single sample is its own P95 and P99,
and the list [1..10] has P95 = P99 = 10 (closing concrete conjuncts). -/
theorem C1_nearest_rank (results : List BenchmarkResult) (qn dn : String)
    (h : results ≠ []) :
    List.Sorted (· ≤ ·) (pysorted (results.map fun x => x.response_time)) ∧
    List.Perm (pysorted (results.map fun x => x.response_time))
      (results.map fun x => x.response_time) ∧
    (print_statistics results qn dn).p95 =
      specNearestRank (results.map fun x => x.response_time) 95 ∧
    (print_statistics results qn dn).p99 =
      specNearestRank (results.map fun x => x.response_time) 99 ∧
    (print_statistics [mkSample 42] "Q1" "DemoDB").p95 = 42 ∧
    (print_statistics [mkSample 42] "Q1" "DemoDB").p99 = 42 ∧
    (print_statistics (([1, 2, 3, 4, 5, 6, 7, 8, 9, 10] : List ℚ).map mkSample)
      "Q1" "DemoDB").p95 = 10 ∧
    (print_statistics (([1, 2, 3, 4, 5, 6, 7, 8, 9, 10] : List ℚ).map mkSample)
      "Q1" "DemoDB").p99 = 10 := by
  obtain ⟨r, rs, rfl⟩ : ∃ r rs, results = r :: rs := by
    cases results with
    | nil => exact absurd rfl h
    | cons r rs => exact ⟨r, rs, rfl⟩
  refine ⟨List.sorted_insertionSort _ _, List.perm_insertionSort _ _, ?_, ?_,
    by decide, by decide, by decide, by decide⟩
  · have hidx : 19 * ((r :: rs).map fun x => x.response_time).length / 20 =
        min ((((r :: rs).map fun x => x.response_time).length) * 95 / 100)
          ((((r :: rs).map fun x => x.response_time).length) - 1) := by
      simp only [List.length_map, List.length_cons]
      omega
    simp only [print_statistics, specNearestRank]
    rw [hidx]
  · have hidx : 99 * ((r :: rs).map fun x => x.response_time).length / 100 =
        min ((((r :: rs).map fun x => x.response_time).length) * 99 / 100)
          ((((r :: rs).map fun x => x.response_time).length) - 1) := by
      simp only [List.length_map, List.length_cons]
      omega
    simp only [print_statistics, specNearestRank]
    rw [hidx]

theorem C1_witness :
    ([mkSample 42] : List BenchmarkResult) ≠ [] ∧
    (List.Sorted (· ≤ ·) (pysorted ([mkSample 42].map fun x => x.response_time)) ∧
     List.Perm (pysorted ([mkSample 42].map fun x => x.response_time))
       ([mkSample 42].map fun x => x.response_time) ∧
     (print_statistics [mkSample 42] "Q1" "DemoDB").p95 =
       specNearestRank ([mkSample 42].map fun x => x.response_time) 95 ∧
     (print_statistics [mkSample 42] "Q1" "DemoDB").p99 =
       specNearestRank ([mkSample 42].map fun x => x.response_time) 99 ∧
     (print_statistics [mkSample 42] "Q1" "DemoDB").p95 = 42 ∧
     (print_statistics [mkSample 42] "Q1" "DemoDB").p99 = 42 ∧
     (print_statistics (([1, 2, 3, 4, 5, 6, 7, 8, 9, 10] : List ℚ).map mkSample)
       "Q1" "DemoDB").p95 = 10 ∧
     (print_statistics (([1, 2, 3, 4, 5, 6, 7, 8, 9, 10] : List ℚ).map mkSample)
       "Q1" "DemoDB").p99 = 10) :=
  ⟨by decide, C1_nearest_rank [mkSample 42] "Q1" "DemoDB" (by decide)⟩

/-- C5: the statistics reducer handles degenerate counts without raising:
the empty sample set yields the no-data report with every statistic left
uncomputed at its default, and a count below two leaves the standard
deviation unshown (the source prints "Std Dev: N/A" instead of a number),
while a count of two or more shows it. -/
theorem C5_degenerate (qn dn : String) (r : BenchmarkResult)
    (results : List BenchmarkResult) (h2 : 2 ≤ results.length) :
    print_statistics [] qn dn = { db := dn, query := qn, isNoData := true } ∧
    (print_statistics [r] qn dn).isNoData = false ∧
    (print_statistics [r] qn dn).stddevShown = false ∧
    (print_statistics results qn dn).isNoData = false ∧
    (print_statistics results qn dn).stddevShown = true := by
  obtain ⟨a, l, rfl⟩ : ∃ a l, results = a :: l := by
    cases results with
    | nil => simp at h2
    | cons a l => exact ⟨a, l, rfl⟩
  simp only [List.length_cons] at h2
  refine ⟨rfl, rfl, rfl, rfl, ?_⟩
  simp only [print_statistics, List.length_map, List.length_cons,
    decide_eq_true_eq]
  omega

theorem C5_witness :
    2 ≤ ([mkSample 1, mkSample 2] : List BenchmarkResult).length ∧
    (print_statistics [] "Q1" "DemoDB" =
       { db := "DemoDB", query := "Q1", isNoData := true } ∧
     (print_statistics [mkSample 3] "Q1" "DemoDB").isNoData = false ∧
     (print_statistics [mkSample 3] "Q1" "DemoDB").stddevShown = false ∧
     (print_statistics [mkSample 1, mkSample 2] "Q1" "DemoDB").isNoData = false ∧
     (print_statistics [mkSample 1, mkSample 2] "Q1" "DemoDB").stddevShown = true) :=
  ⟨by decide, C5_degenerate "Q1" "DemoDB" (mkSample 3) [mkSample 1, mkSample 2]
    (by decide)⟩

/-- C2: when exactly one of the N measured iterations fails, the iteration
runner returns exactly N-1 samples and the console log holds exactly one
error line, carrying the backend name, the operation id, the (one-based)
iteration index and the error text; the run is not aborted, so iterations
after the failing one still contribute, and the failing iteration
contributes no sample at all. -/
theorem C2_one_failure (name qname : String)
    (outcome : ℕ → Except String (ℚ × ℕ)) (ts : ℕ → String) (cs : String)
    (N i₀ : ℕ) (e : String) (hi : i₀ < N) (hfail : outcome i₀ = .error e)
    (hok : ∀ i, i < N → i ≠ i₀ → okOutcome (outcome i) = true) :
    (run_benchmark name qname outcome ts N cs).1.length = N - 1 ∧
    (run_benchmark name qname outcome ts N cs).2 =
      [errMsg name qname (i₀ + 1) e] := by
  rw [run_benchmark_eq]
  constructor
  · apply filterMap_range_one_none _ N i₀ hi
    · unfold benchSample
      rw [hfail]
    · intro i h1 h2
      have hoki := hok i h1 h2
      unfold benchSample
      cases ho : outcome i with
      | ok v =>
        obtain ⟨t, rc⟩ := v
        simp
      | error e2 =>
        rw [ho] at hoki
        simp [okOutcome] at hoki
  · apply filterMap_range_one_some _ N i₀ _ hi
    · unfold benchErr
      rw [hfail]
    · intro i h1 h2
      have hoki := hok i h1 h2
      unfold benchErr
      cases ho : outcome i with
      | ok v => rfl
      | error e2 =>
        rw [ho] at hoki
        simp [okOutcome] at hoki

theorem C2_witness :
    (1 < 3 ∧ oneFailOutcome 1 = .error "boom" ∧
      ∀ i, i < 3 → i ≠ 1 → okOutcome (oneFailOutcome i) = true) ∧
    (run_benchmark "DemoDB" "Q1" oneFailOutcome tsf 3 "warm").1.length = 3 - 1 ∧
    (run_benchmark "DemoDB" "Q1" oneFailOutcome tsf 3 "warm").2 =
      [errMsg "DemoDB" "Q1" (1 + 1) "boom"] :=
  ⟨⟨by decide, rfl, by decide⟩,
   C2_one_failure "DemoDB" "Q1" oneFailOutcome tsf "warm" 3 1 "boom"
     (by decide) rfl (by decide)⟩

/-- C10: the iteration runner returns at most N samples for N iterations,
and with zero iterations it returns the untouched empty accumulators
whatever the query behaviour is, so the query function is never invoked. -/
theorem C10_iteration_bound (name qname cs : String)
    (outcome g : ℕ → Except String (ℚ × ℕ)) (ts ts2 : ℕ → String) (N : ℕ) :
    (run_benchmark name qname outcome ts N cs).1.length ≤ N ∧
    run_benchmark name qname outcome ts 0 cs = ([], []) ∧
    run_benchmark name qname g ts2 0 cs = ([], []) := by
  refine ⟨?_, rfl, rfl⟩
  rw [run_benchmark_eq]
  calc ((List.range N).filterMap
          (benchSample name qname cs ts outcome)).length
      ≤ (List.range N).length := List.length_filterMap_le _ _
    _ = N := List.length_range N

/-- C3: warmup outcomes never reach the sample set.  Replacing the warmup
behaviour of a backend (any call of ordinal below the warmup count, for
example making every warmup call fail) leaves the samples of the
(backend, query) block unchanged; the statistics summary of the block is
computed from those measured samples only; a failing warmup call is
reported in the log (and the block, in particular the whole measured
phase, still runs); and every retained sample is a measured one, carrying
cache_state "warm". -/
theorem C3_warmup_isolated (b : Backend) (qid : String) (wu it : ℕ)
    (ts : ℕ → String) (c' : String → ℕ → Except String (ℚ × ℕ))
    (k : ℕ) (e : String) (r : BenchmarkResult)
    (hagree : ∀ q j, wu ≤ j → c' q j = b.call q j)
    (hk : k < wu) (hke : b.call qid k = .error e)
    (hr : r ∈ (run_pair b qid wu it ts).samples) :
    (run_pair { b with call := c' } qid wu it ts).samples =
      (run_pair b qid wu it ts).samples ∧
    (run_pair b qid wu it ts).report =
      print_statistics (run_pair b qid wu it ts).samples qid b.name ∧
    ("  Warmup error: " ++ e) ∈ (run_pair b qid wu it ts).messages ∧
    r.cache_state = "warm" := by
  refine ⟨?_, rfl, ?_, ?_⟩
  · have hfun : (fun i => c' qid (wu + i)) = (fun i => b.call qid (wu + i)) :=
      funext fun i => hagree qid (wu + i) (Nat.le_add_right wu i)
    show (run_benchmark b.name qid (fun i => c' qid (wu + i)) ts it "warm").1 =
      (run_benchmark b.name qid (fun i => b.call qid (wu + i)) ts it "warm").1
    rw [hfun]
  · show _ ∈ warmup_phase b qid wu ++ _
    apply List.mem_append_left
    unfold warmup_phase
    apply List.mem_filterMap.mpr
    exact ⟨k, List.mem_range.mpr hk, by rw [hke]⟩
  · exact mem_run_benchmark_cache b.name qid "warm" ts _ it r hr

/-- The sample produced by measured iteration 0 of the concrete C3 run. -/
def warmSample : BenchmarkResult :=
  { database := "WarmDB", query_type := "Q1", response_time := 1,
    rows_returned := 1, cache_state := "warm",
    timestamp := "2026-01-01T00:00:00" }

theorem C3_witness :
    (0 < 1 ∧ warmBackend.call "Q1" 0 = .error "cold cache" ∧
      warmSample ∈ (run_pair warmBackend "Q1" 1 2 tsf).samples) ∧
    ((run_pair { warmBackend with call := altCall } "Q1" 1 2 tsf).samples =
       (run_pair warmBackend "Q1" 1 2 tsf).samples ∧
     (run_pair warmBackend "Q1" 1 2 tsf).report =
       print_statistics (run_pair warmBackend "Q1" 1 2 tsf).samples "Q1"
         warmBackend.name ∧
     ("  Warmup error: " ++ "cold cache") ∈
       (run_pair warmBackend "Q1" 1 2 tsf).messages ∧
     warmSample.cache_state = "warm") :=
  ⟨⟨by decide, rfl, by decide⟩,
   C3_warmup_isolated warmBackend "Q1" 1 2 tsf altCall 0 "cold cache" warmSample
     (by
       intro q j hj
       show altCall q j = warmCall q j
       unfold altCall
       rw [if_neg (by omega)])
     (by decide) rfl (by decide)⟩

/-- C4: a backend whose connect() raises is skipped whole.  The run over
`pre ++ [b] ++ post` yields exactly the samples of `pre` followed by those
of `post` (so the failing backend contributes zero samples and none of its
operations run — the right-hand side never consults `b.call`), and the log
holds, between the logs of `pre` and `post`, exactly the connect-failure
report for `b`; the backends after `b` therefore still run to
completion. -/
theorem C4_connect_failure (pre post : List Backend) (b : Backend)
    (qs : List String) (it wu : ℕ) (ts : ℕ → String)
    (hb : b.connectOK = false) :
    (run_all (pre ++ b :: post) qs it wu ts).1 =
      (run_all pre qs it wu ts).1 ++ (run_all post qs it wu ts).1 ∧
    (run_all (pre ++ b :: post) qs it wu ts).2 =
      (run_all pre qs it wu ts).2 ++
        ("Failed to connect to " ++ b.name ++ ": " ++ b.connectErr) ::
          (run_all post qs it wu ts).2 := by
  have hback : run_backend b qs it wu ts =
      ([], ["Failed to connect to " ++ b.name ++ ": " ++ b.connectErr]) := by
    unfold run_backend
    rw [hb]
    rfl
  rw [run_all_append, run_all_cons, hback]
  constructor <;> simp

theorem C4_witness :
    badBackend.connectOK = false ∧
    (run_all ([] ++ badBackend :: [demoBackend]) ["Q1"] 1 0 tsf).1 =
      (run_all [] ["Q1"] 1 0 tsf).1 ++ (run_all [demoBackend] ["Q1"] 1 0 tsf).1 ∧
    (run_all ([] ++ badBackend :: [demoBackend]) ["Q1"] 1 0 tsf).2 =
      (run_all [] ["Q1"] 1 0 tsf).2 ++
        ("Failed to connect to " ++ badBackend.name ++ ": " ++
            badBackend.connectErr) ::
          (run_all [demoBackend] ["Q1"] 1 0 tsf).2 :=
  ⟨rfl, C4_connect_failure [] [demoBackend] badBackend ["Q1"] 1 0 tsf rfl⟩

/-- C6 counterexample: calling the exporter with an empty sample set does
write a file — `open(output_file, "w")` runs before the emptiness test and
creates or truncates the destination — contradicting the claim that no
file is written in that case. -/
theorem C6_counterexample :
    (save_results [] "benchmark_results.csv").fileCreated = true := rfl

/-- C6 amended: given an empty sample set the exporter creates (or
truncates to empty) the destination file but writes neither header nor
rows into it, reports "No results to save" and raises nothing; the
orchestrator itself never hands the exporter an empty set — a run that
collected zero samples skips the export step entirely. -/
theorem C6_empty_export (out : String) (dbs : List Backend)
    (qs : List String) (it wu : ℕ) (ts : ℕ → String)
    (h : (main_run dbs qs it wu ts out).all_results = []) :
    save_results [] out =
      { fileCreated := true, header := none, rows := [],
        messages := ["No results to save", "Results saved to " ++ out] } ∧
    (main_run dbs qs it wu ts out).saved = none := by
  refine ⟨rfl, ?_⟩
  revert h
  unfold main_run
  split
  · intro _
    rfl
  · split
    · intro _
      rfl
    · intro h
      simp at h

theorem C6_witness :
    (main_run [badBackend] ["Q1"] 2 1 tsf "out.csv").all_results = [] ∧
    (save_results [] "out.csv" =
       { fileCreated := true, header := none, rows := [],
         messages := ["No results to save", "Results saved to " ++ "out.csv"] } ∧
     (main_run [badBackend] ["Q1"] 2 1 tsf "out.csv").saved = none) :=
  ⟨rfl, C6_empty_export "out.csv" [badBackend] ["Q1"] 2 1 tsf rfl⟩

/-- C7: for a non-empty sample set the exporter writes the file with the
header row holding exactly the six columns database, query_type,
response_time_ms, rows_returned, cache_state, timestamp in that order,
followed by exactly one row per sample in accumulation order (each row as
the spec-side `specExportRow`).  The exporter is a pure function of the
sample list and destination, so exporting the same sequence twice — the
timestamps being data inside the samples — yields this same output both
times. -/
theorem C7_export_format (r : BenchmarkResult) (rs : List BenchmarkResult)
    (out : String) :
    (save_results (r :: rs) out).fileCreated = true ∧
    (save_results (r :: rs) out).header =
      some ["database", "query_type", "response_time_ms", "rows_returned",
        "cache_state", "timestamp"] ∧
    (save_results (r :: rs) out).rows = (r :: rs).map specExportRow :=
  ⟨rfl, rfl, rfl⟩

/-- C8 counterexample: a run in which every backend fails to connect
collects zero samples, yet the process exit status is 0 — the script never
calls sys.exit and main() returning makes the interpreter exit cleanly —
contradicting the claim that zero collected samples give a non-zero
status. -/
theorem C8_counterexample :
    (main_run [badBackend] ["Q1"] 2 1 tsf "benchmark_results.csv").all_results
        = [] ∧
    (main_run [badBackend] ["Q1"] 2 1 tsf "benchmark_results.csv").exitCode
        = 0 :=
  ⟨rfl, rfl⟩

/-- Helper: the benchmark tail of main (from the point the workload is
built) returns with exit code 0 on each of its branches. -/
theorem main_run_exit_zero (dbs : List Backend) (qs : List String)
    (it wu : ℕ) (ts : ℕ → String) (out : String) :
    (main_run dbs qs it wu ts out).exitCode = 0 := by
  unfold main_run
  split
  · rfl
  · split <;> rfl

/-- C8 amended: the exit status never depends on how many samples were
collected.  Once the workload is built (first conjunct, under the
hypothesis that the configuration step returned a query list), main exits
with status 0 on every path, whatever the backends do — a total failure
(zero samples) is only reported on the console, and partial failures
likewise leave the status 0.  The only non-zero exit in main is the
uncaught KeyError abort on a structurally malformed query definition (the
C9 path), which happens before any measurement — zero samples collected,
nothing saved — so it is the configuration, never the sample count, that
sets the status (closing concrete conjuncts). -/
theorem C8_exit_status (cfile : String) (src : ConfigSource)
    (dbs : List Backend) (it wu : ℕ) (ts : ℕ → String) (out : String)
    (qs : List QueryEntry)
    (hok : (config_pipeline cfile src).1 = .ok qs) :
    (main_full cfile src dbs it wu ts out).exitCode = 0 ∧
    (main_full "query_config.json"
      (ConfigSource.parsed ⟨some [("Q1", badQueryDef)]⟩)
      dbs it wu ts out).exitCode = (match dbs with | [] => 0 | _ :: _ => 1) ∧
    (main_full "query_config.json"
      (ConfigSource.parsed ⟨some [("Q1", badQueryDef)]⟩)
      dbs it wu ts out).all_results = [] ∧
    (main_full "query_config.json"
      (ConfigSource.parsed ⟨some [("Q1", badQueryDef)]⟩)
      dbs it wu ts out).saved = none := by
  refine ⟨?_, ?_, ?_, ?_⟩
  · unfold main_full
    cases dbs with
    | nil => exact main_run_exit_zero [] [] it wu ts out
    | cons d ds =>
      rw [hok]
      exact main_run_exit_zero (d :: ds) (qs.map QueryEntry.id) it wu ts out
  · cases dbs with
    | nil => rfl
    | cons d ds => rfl
  · cases dbs with
    | nil => rfl
    | cons d ds => rfl
  · cases dbs with
    | nil => rfl
    | cons d ds => rfl

theorem C8_witness :
    (config_pipeline "query_config.json" ConfigSource.missing).1 =
      .ok default_queries ∧
    ((main_full "query_config.json" ConfigSource.missing [badBackend]
        2 1 tsf "benchmark_results.csv").exitCode = 0 ∧
     (main_full "query_config.json"
       (ConfigSource.parsed ⟨some [("Q1", badQueryDef)]⟩)
       [badBackend] 2 1 tsf "benchmark_results.csv").exitCode =
         (match ([badBackend] : List Backend) with | [] => 0 | _ :: _ => 1) ∧
     (main_full "query_config.json"
       (ConfigSource.parsed ⟨some [("Q1", badQueryDef)]⟩)
       [badBackend] 2 1 tsf "benchmark_results.csv").all_results = [] ∧
     (main_full "query_config.json"
       (ConfigSource.parsed ⟨some [("Q1", badQueryDef)]⟩)
       [badBackend] 2 1 tsf "benchmark_results.csv").saved = none) :=
  ⟨rfl, C8_exit_status "query_config.json" ConfigSource.missing [badBackend]
    2 1 tsf "benchmark_results.csv" default_queries rfl⟩

/-- C9 counterexample: a parsed configuration whose query definition lacks
its keys (`{"queries": {"Q1": {}}}`) makes the query-building loop raise
an uncaught KeyError — the pipeline result is the propagated exception,
not a fallback workload — contradicting the claim that every malformed
workload configuration falls back and continues. -/
theorem C9_counterexample :
    (config_pipeline "query_config.json"
        (ConfigSource.parsed ⟨some [("Q1", badQueryDef)]⟩)).1 =
      Except.error "KeyError: method" := rfl

/-- C9 amended: a missing configuration file and unparseable configuration
content are each reported and the harness falls back to the default
hardcoded workload and continues; but a structurally malformed query
definition (a record missing its "method" key) raises an uncaught KeyError
that aborts the process instead of falling back. -/
theorem C9_config_fallback (cfile e qid : String) (qd : QueryDef)
    (hm : qd.method = none) :
    config_pipeline cfile ConfigSource.missing =
      (Except.ok default_queries,
       ["Query configuration file " ++ cfile ++
          " not found. Using default queries.",
        "Using default hardcoded queries..."]) ∧
    config_pipeline cfile (ConfigSource.unparseable e) =
      (Except.ok default_queries,
       ["Error parsing query configuration: " ++ e,
        "Using default hardcoded queries..."]) ∧
    (config_pipeline cfile (ConfigSource.parsed ⟨some [(qid, qd)]⟩)).1 =
      Except.error "KeyError: method" := by
  refine ⟨rfl, rfl, ?_⟩
  obtain ⟨m, p, d⟩ := qd
  simp only at hm
  subst hm
  rfl

theorem C9_witness :
    badQueryDef.method = none ∧
    (config_pipeline "query_config.json" ConfigSource.missing =
       (Except.ok default_queries,
        ["Query configuration file " ++ "query_config.json" ++
           " not found. Using default queries.",
         "Using default hardcoded queries..."]) ∧
     config_pipeline "query_config.json"
         (ConfigSource.unparseable "Expecting value: line 1 column 1 (char 0)") =
       (Except.ok default_queries,
        ["Error parsing query configuration: " ++
           "Expecting value: line 1 column 1 (char 0)",
         "Using default hardcoded queries..."]) ∧
     (config_pipeline "query_config.json"
         (ConfigSource.parsed ⟨some [("Q7", badQueryDef)]⟩)).1 =
       Except.error "KeyError: method") :=
  ⟨rfl, C9_config_fallback "query_config.json"
    "Expecting value: line 1 column 1 (char 0)" "Q7" badQueryDef rfl⟩

end GenomicBench
